import Mathlib

/-!
Shallow embedding of `src/lib.rs` of the `engine-rust` repository: a minimal
wgpu/winit rendering demo.  The state, the input handler, `resize`, `render`
and the event-loop dispatch closure of `run` are translated into executable
Lean definitions.  `f64` values (cursor positions, colours, scale factors)
are embedded as exact rationals: every claim about them is structural
(which expression is stored), not about rounding.  `u8`/`u32` fields are
embedded as `Nat`; the only arithmetic on them (`as u32` casts) is made
explicit.  Calls that panic in Rust (`unwrap`, indexing an empty slice,
`panic!` on a failed shader read) are embedded as `Option` returning `none`.
-/

namespace Engine

/-- `winit::dpi::PhysicalSize<u32>`. -/
structure PhysicalSize where
  width : Nat
  height : Nat
deriving DecidableEq, Repr

/-- `wgpu::Color`: four `f64` components, embedded as rationals. -/
structure Color where
  r : ℚ
  g : ℚ
  b : ℚ
  a : ℚ
deriving DecidableEq, Repr

/-- `wgpu::TextureFormat`, abstracted to an identifier plus its
`is_srgb()` answer. -/
structure TextureFormat where
  id : Nat
  srgb : Bool
deriving DecidableEq, Repr

/-- `TextureFormat::is_srgb`. -/
def TextureFormat.is_srgb (f : TextureFormat) : Bool := f.srgb

/-- The fields of `wgpu::SurfaceConfiguration` that the program sets and
reads (`usage`, `present_mode` and `view_formats` are constants the code
never reads back; they are kept out of the record). -/
structure SurfaceConfiguration where
  format : TextureFormat
  width : Nat
  height : Nat
  alpha_mode : Nat
  desired_maximum_frame_latency : Nat
deriving DecidableEq, Repr

/-- A `wgpu::RenderPipeline` as observable from this program: the label and
shader file passed to `create_pipeline`, and the WGSL source that was read
from that file. -/
structure RenderPipeline where
  label : String
  shader_path : String
  shader_source : String
deriving DecidableEq, Repr

/-- `create_pipeline` in `lib.rs`: reads the shader file (panicking — here
`none` — when the read fails) and builds one pipeline object from it.
`fs` embeds the file system seen by `read_file`. -/
def create_pipeline (fs : String → Option String) (name shader : String) :
    Option RenderPipeline :=
  match fs shader with
  | some source => some { label := name, shader_path := shader, shader_source := source }
  | none => none

/-- The subset of `wgpu::SurfaceCapabilities` the program reads. -/
structure SurfaceCapabilities where
  formats : List TextureFormat
  alpha_modes : List Nat
deriving Repr

/-- The surface-format selection in `State::new`:
`formats.iter().copied().filter(|f| f.is_srgb()).next().unwrap_or(formats[0])`.
The `unwrap_or` argument `formats[0]` is evaluated eagerly in Rust, so an
empty `formats` list panics (`none`) in every case. -/
def surface_format_of (caps : SurfaceCapabilities) : Option TextureFormat :=
  match caps.formats with
  | [] => none
  | f0 :: _ =>
    match caps.formats.filter (fun f => f.is_srgb) with
    | f :: _ => some f
    | [] => some f0

/-- The `State` struct of `lib.rs`.  `surface`, `device`, `queue` and the
window reference are opaque GPU/window handles the program only passes
through; the window is represented by its id.  `current_pipeline` is a `u8`
in the source; the program only ever stores the constants `1` and `2` in it
and never does arithmetic on it, so `Nat` embeds it exactly. -/
structure State where
  config : SurfaceConfiguration
  size : PhysicalSize
  window_id : Nat
  color : Color
  pipeline : RenderPipeline
  pipeline2 : RenderPipeline
  current_pipeline : Nat
deriving DecidableEq, Repr

/-- `State::new`.  Inputs are the environment the real constructor consults:
the file system for the two shader files, the surface capabilities reported
by the adapter, and the window's inner size and id.  Besides the state it
returns the list of pipeline objects created, in creation order.  `none`
embeds the panics (empty capability lists, unreadable shader files). -/
def State.new (fs : String → Option String) (caps : SurfaceCapabilities)
    (window_size : PhysicalSize) (window_id : Nat) :
    Option (State × List RenderPipeline) := do
  let surface_format ← surface_format_of caps
  let alpha_mode ← caps.alpha_modes.head?
  let config : SurfaceConfiguration :=
    { format := surface_format
      width := window_size.width
      height := window_size.height
      alpha_mode := alpha_mode
      desired_maximum_frame_latency := 0 }
  let render_pipeline ← create_pipeline fs "Shader 1" "./src/shader.wgsl"
  let render_pipeline_2 ← create_pipeline fs "Shader 2" "./src/shader2.wgsl"
  some ({ config := config
          size := window_size
          window_id := window_id
          color := { r := 1/10, g := 2/10, b := 3/10, a := 1 }
          pipeline := render_pipeline
          pipeline2 := render_pipeline_2
          current_pipeline := 1 },
        [render_pipeline, render_pipeline_2])

/-- `State::resize`.  The boolean records whether `surface.configure` was
called. -/
def State.resize (s : State) (new_size : PhysicalSize) : State × Bool :=
  if (new_size.width > 0 ∧ new_size.height > 0) ∧ new_size ≠ s.size then
    ({ s with
        size := new_size
        config := { s.config with width := new_size.width, height := new_size.height } },
     true)
  else
    (s, false)

/-- `winit::event::ElementState`. -/
inductive ElementState where
  | pressed
  | released
deriving DecidableEq, Repr

/-- The named keys this program distinguishes (`winit::keyboard::NamedKey`). -/
inductive NamedKey where
  | space
  | escape
  | enter
  | otherNamed (id : Nat)
deriving DecidableEq, Repr

/-- `winit::keyboard::Key`. -/
inductive Key where
  | named (k : NamedKey)
  | character (s : String)
deriving DecidableEq, Repr

/-- `Key::to_text`: `Some` for character keys and for the named keys that
produce text. -/
def Key.to_text : Key → Option String
  | .character s => some s
  | .named .space => some " "
  | .named .enter => some "\n"
  | .named _ => none

/-- The `{:?}` debug rendering of a key, used by the fallback print in the
keyboard branch. -/
def Key.debug_format : Key → String
  | .named .space => "Space"
  | .named .escape => "Escape"
  | .named .enter => "Enter"
  | .named (.otherNamed n) => "Named(" ++ toString n ++ ")"
  | .character s => "Character(\"" ++ s ++ "\")"

/-- The `winit::event::WindowEvent` constructors the `match` statements of
`input` and `run` distinguish; every other constructor falls into
`other`. -/
inductive WindowEvent where
  | mouseInput
  | cursorMoved (x y : ℚ)
  | resized (physical_size : PhysicalSize)
  | scaleFactorChanged (scale_factor : ℚ)
  | redrawRequested
  | keyboardInput (state : ElementState) (logical_key : Key)
  | closeRequested
  | other
deriving DecidableEq, Repr

/-- Result of `State::input`: the updated state, the returned boolean, and
whether `window.request_redraw()` was called inside `input`. -/
structure InputResult where
  state : State
  consumed : Bool
  redraw : Bool
deriving DecidableEq, Repr

/-- `State::input`. -/
def State.input (s : State) (event : WindowEvent) : InputResult :=
  match event with
  | .mouseInput => { state := s, consumed := true, redraw := false }
  | .cursorMoved x y =>
    { state :=
        { s with
            color :=
              { r := x / (s.size.width : ℚ)
                g := 1 - x / (s.size.width : ℚ)
                b := y / (s.size.height : ℚ)
                a := 1 } }
      consumed := true
      redraw := true }
  | _ => { state := s, consumed := false, redraw := false }

/-- `wgpu::SurfaceError`. -/
inductive SurfaceError where
  | timeout
  | outdated
  | lost
  | outOfMemory
deriving DecidableEq, Repr

/-- The `{:?}` rendering of a surface error, for the `eprintln!` branch. -/
def SurfaceError.debug_format : SurfaceError → String
  | .timeout => "Timeout"
  | .outdated => "Outdated"
  | .lost => "Lost"
  | .outOfMemory => "OutOfMemory"

/-- `wgpu::LoadOp` for a colour attachment. -/
inductive LoadOp where
  | clear (color : Color)
  | load
deriving DecidableEq, Repr

/-- What one successful `State::render` submits: the colour attachment's
load operation and the pipeline and draw call recorded in the pass. -/
structure RenderPassRecord where
  load : LoadOp
  pipeline : RenderPipeline
  draw_vertices : Nat × Nat
  draw_instances : Nat × Nat
deriving DecidableEq, Repr

/-- The pipeline selection in `render`:
`match self.current_pipeline { 1 => &self.pipeline, 2 => &self.pipeline2, _ => &self.pipeline }`. -/
def State.bound_pipeline (s : State) : RenderPipeline :=
  match s.current_pipeline with
  | 1 => s.pipeline
  | 2 => s.pipeline2
  | _ => s.pipeline

/-- `State::render`.  `acquire` is the outcome of
`surface.get_current_texture()` (`some e` embeds the error `e`); on failure
the `?` operator returns the error before anything is recorded.  `render`
assigns no field of `self`, so the state is not part of the result. -/
def State.render (s : State) (acquire : Option SurfaceError) :
    Except SurfaceError RenderPassRecord :=
  match acquire with
  | some e => .error e
  | none =>
    .ok { load := .clear s.color
          pipeline := s.bound_pipeline
          draw_vertices := (0, 3)
          draw_instances := (0, 1) }

/-- `expr as u32` on an `f64`: Rust saturating float-to-int cast. -/
def f64_as_u32 (q : ℚ) : Nat := min (max 0 ⌊q⌋).toNat (2 ^ 32 - 1)

/-- Which arm of the event-loop dispatch ran for a window event. -/
inductive Branch where
  | consumedByInput
  | resizedBranch
  | scaleFactorBranch
  | redrawBranch
  | keyboardBranch
  | closeBranch
  | noBranch
deriving DecidableEq, Repr

/-- Observable side effects of one dispatch step, in program order. -/
inductive Effect where
  | requestRedraw
  | configureSurface
  | submit (pass : RenderPassRecord)
  | present
  | printLine (s : String)
  | printStr (s : String)
  | eprintLine (s : String)
  | flushStdout
deriving DecidableEq, Repr

/-- The environment one dispatch step consults: the outcome of
`surface.get_current_texture()` if a render happens, and whether
`io::stdout().flush()` succeeds if the keyboard branch runs. -/
structure StepEnv where
  acquire : Option SurfaceError
  flush_ok : Bool
deriving Repr

/-- Result of one iteration of the event-loop closure. -/
structure StepResult where
  state : State
  effects : List Effect
  branch : Branch
  exited : Bool
deriving DecidableEq, Repr

/-- The body of the event-loop closure of `run` for a window event whose
`window_id` matched (`input` first, then the `match event` dispatch). -/
def handle_window_event (env : StepEnv) (s : State) (event : WindowEvent) :
    StepResult :=
  let r := s.input event
  if r.consumed then
    { state := r.state
      effects := if r.redraw then [.requestRedraw] else []
      branch := .consumedByInput
      exited := false }
  else
    match event with
    | .resized physical_size =>
      let (s2, reconf) := s.resize physical_size
      { state := s2
        effects := (if reconf then [Effect.configureSurface] else []) ++ [.requestRedraw]
        branch := .resizedBranch
        exited := false }
    | .scaleFactorChanged scale_factor =>
      let new_size : PhysicalSize :=
        { width := f64_as_u32 ((s.size.width : ℚ) * scale_factor)
          height := f64_as_u32 ((s.size.height : ℚ) * scale_factor) }
      let (s2, reconf) := s.resize new_size
      { state := s2
        effects := (if reconf then [Effect.configureSurface] else []) ++ [.requestRedraw]
        branch := .scaleFactorBranch
        exited := false }
    | .redrawRequested =>
      match s.render env.acquire with
      | .ok pass =>
        { state := s
          effects := [.submit pass, .present]
          branch := .redrawBranch
          exited := false }
      | .error .lost =>
        let (s2, reconf) := s.resize s.size
        { state := s2
          effects := if reconf then [Effect.configureSurface] else []
          branch := .redrawBranch
          exited := false }
      | .error .outOfMemory =>
        { state := s, effects := [], branch := .redrawBranch, exited := true }
      | .error e =>
        { state := s
          effects := [.eprintLine e.debug_format]
          branch := .redrawBranch
          exited := false }
    | .keyboardInput .pressed logical_key =>
      match logical_key with
      | .named .space =>
        let s2 :=
          { s with current_pipeline := if s.current_pipeline = 1 then 2 else 1 }
        { state := s2
          effects :=
            [.requestRedraw,
             .printLine ("Updated current pipeline: " ++ toString s2.current_pipeline),
             .flushStdout]
          branch := .keyboardBranch
          exited := !env.flush_ok }
      | key =>
        { state := s
          effects :=
            [(match key.to_text with
              | some text => Effect.printStr text
              | none => Effect.printStr key.debug_format),
             .flushStdout]
          branch := .keyboardBranch
          exited := !env.flush_ok }
    | .closeRequested =>
      { state := s, effects := [], branch := .closeBranch, exited := true }
    | .keyboardInput .released (.named .escape) =>
      { state := s, effects := [], branch := .closeBranch, exited := true }
    | _ =>
      { state := s, effects := [], branch := .noBranch, exited := false }

/-- A `winit::event::Event` as the top-level `match` of `run` sees it. -/
inductive Event where
  | windowEvent (window_id : Nat) (event : WindowEvent)
  | otherEvent
deriving Repr

/-- One iteration of the event-loop closure of `run`, including the
`window_id == state.window().id()` guard. -/
def handle_event (env : StepEnv) (s : State) (ev : Event) : StepResult :=
  match ev with
  | .windowEvent window_id event =>
    if window_id = s.window_id then handle_window_event env s event
    else { state := s, effects := [], branch := .noBranch, exited := false }
  | .otherEvent =>
    { state := s, effects := [], branch := .noBranch, exited := false }

/-- The state after feeding a list of events (each with its environment)
through the event loop, starting from `s`. -/
def run_events (s : State) : List (StepEnv × Event) → State
  | [] => s
  | (env, ev) :: rest => run_events (handle_event env s ev).state rest

/-! ### Concrete sample inputs, used to evaluate the constructor and the
event loop on closed terms. -/

/-- A file system holding both shader files. -/
def sample_fs : String → Option String := fun path =>
  if path = "./src/shader.wgsl" then some "shader one source"
  else if path = "./src/shader2.wgsl" then some "shader two source"
  else none

/-- Capabilities whose second reported format is the first sRGB one. -/
def sample_caps : SurfaceCapabilities :=
  { formats := [{ id := 7, srgb := false }, { id := 3, srgb := true }]
    alpha_modes := [0] }

/-- The state `State.new sample_fs sample_caps ⟨800, 600⟩ 0` produces. -/
def sample_state : State :=
  { config :=
      { format := { id := 3, srgb := true }
        width := 800
        height := 600
        alpha_mode := 0
        desired_maximum_frame_latency := 0 }
    size := { width := 800, height := 600 }
    window_id := 0
    color := { r := 1/10, g := 2/10, b := 3/10, a := 1 }
    pipeline :=
      { label := "Shader 1"
        shader_path := "./src/shader.wgsl"
        shader_source := "shader one source" }
    pipeline2 :=
      { label := "Shader 2"
        shader_path := "./src/shader2.wgsl"
        shader_source := "shader two source" }
    current_pipeline := 1 }

/-- A sample event trace: a space press followed by a redraw. -/
def sample_events : List (StepEnv × Event) :=
  [({ acquire := none, flush_ok := true },
    .windowEvent 0 (.keyboardInput .pressed (.named .space))),
   ({ acquire := none, flush_ok := true }, .windowEvent 0 .redrawRequested)]

/-! ### Helper lemmas -/

/-- Inversion of a successful `State.new`: every field of the produced
state, and the creation trace. -/
lemma new_inv {fs : String → Option String} {caps : SurfaceCapabilities}
    {ws : PhysicalSize} {wid : Nat} {s : State} {created : List RenderPipeline}
    (h : State.new fs caps ws wid = some (s, created)) :
    (∃ fmt, surface_format_of caps = some fmt ∧ s.config.format = fmt) ∧
    s.config.width = ws.width ∧ s.config.height = ws.height ∧ s.size = ws ∧
    s.window_id = wid ∧
    s.color = { r := 1/10, g := 2/10, b := 3/10, a := 1 } ∧
    s.current_pipeline = 1 ∧
    created = [s.pipeline, s.pipeline2] ∧
    create_pipeline fs "Shader 1" "./src/shader.wgsl" = some s.pipeline ∧
    create_pipeline fs "Shader 2" "./src/shader2.wgsl" = some s.pipeline2 := by
  unfold State.new at h
  simp only [Option.bind_eq_bind, Option.bind_eq_some, Option.some.injEq,
    Prod.mk.injEq] at h
  obtain ⟨fmt, hf, am, ha, p1, hp1, p2, hp2, hs, hc⟩ := h
  subst hs
  subst hc
  exact ⟨⟨fmt, hf, rfl⟩, rfl, rfl, rfl, rfl, rfl, rfl, rfl, hp1, hp2⟩

/-- `resize` never touches `current_pipeline`. -/
lemma resize_fst_current_pipeline (s : State) (ns : PhysicalSize) :
    ((s.resize ns).1).current_pipeline = s.current_pipeline := by
  unfold State.resize
  split <;> rfl

/-- One dispatch step keeps `current_pipeline` in `{1, 2}`. -/
lemma handle_window_event_pipeline_mem (env : StepEnv) (s : State)
    (ev : WindowEvent)
    (h : s.current_pipeline = 1 ∨ s.current_pipeline = 2) :
    (handle_window_event env s ev).state.current_pipeline = 1 ∨
    (handle_window_event env s ev).state.current_pipeline = 2 := by
  cases ev with
  | mouseInput => simpa [handle_window_event, State.input] using h
  | cursorMoved x y => simpa [handle_window_event, State.input] using h
  | resized ps =>
    simpa [handle_window_event, State.input, resize_fst_current_pipeline] using h
  | scaleFactorChanged sf =>
    simpa [handle_window_event, State.input, resize_fst_current_pipeline] using h
  | redrawRequested =>
    rcases hacq : env.acquire with _ | e
    · simpa [handle_window_event, State.input, State.render, hacq] using h
    · cases e <;>
        simpa [handle_window_event, State.input, State.render, hacq,
          resize_fst_current_pipeline] using h
  | keyboardInput st key =>
    cases st with
    | pressed =>
      cases key with
      | named k =>
        cases k with
        | space =>
          by_cases hcp : s.current_pipeline = 1 <;>
            simp [handle_window_event, State.input, hcp]
        | escape => simpa [handle_window_event, State.input] using h
        | enter => simpa [handle_window_event, State.input] using h
        | otherNamed n => simpa [handle_window_event, State.input] using h
      | character str => simpa [handle_window_event, State.input] using h
    | released =>
      cases key with
      | named k => cases k <;> simpa [handle_window_event, State.input] using h
      | character str => simpa [handle_window_event, State.input] using h
  | closeRequested => simpa [handle_window_event, State.input] using h
  | other => simpa [handle_window_event, State.input] using h

/-- Running any event list keeps `current_pipeline` in `{1, 2}`. -/
lemma run_events_pipeline_mem (evs : List (StepEnv × Event)) (s : State)
    (h : s.current_pipeline = 1 ∨ s.current_pipeline = 2) :
    (run_events s evs).current_pipeline = 1 ∨
    (run_events s evs).current_pipeline = 2 := by
  induction evs generalizing s with
  | nil => simpa [run_events] using h
  | cons p rest ih =>
    obtain ⟨env, ev⟩ := p
    have hstep : (handle_event env s ev).state.current_pipeline = 1 ∨
        (handle_event env s ev).state.current_pipeline = 2 := by
      cases ev with
      | windowEvent wid wev =>
        by_cases hw : wid = s.window_id
        · simpa [handle_event, hw] using
            handle_window_event_pipeline_mem env s wev h
        · simpa [handle_event, hw] using h
      | otherEvent => simpa [handle_event] using h
    simpa [run_events] using ih _ hstep

/-- The selection the spec describes for the surface format: the first
sRGB format, falling back to the first reported format. -/
lemma surface_format_of_eq (caps : SurfaceCapabilities) (f0 : TextureFormat)
    (rest : List TextureFormat) (hcf : caps.formats = f0 :: rest) :
    surface_format_of caps =
      some ((caps.formats.filter (fun f => f.is_srgb)).headD f0) := by
  unfold surface_format_of
  rw [hcf]
  rcases hfl : (f0 :: rest).filter (fun f => f.is_srgb) with _ | ⟨g, gs⟩ <;>
    simp [hfl, List.headD]

/-! ### Claim theorems -/

/-- Claim C1: for every `CursorMoved` window event at position `(x, y)`,
`input` sets the stored clear color to
`(x / size.width, 1 - x / size.width, y / size.height, 1)` and requests a
redraw, and the next render clears the frame with exactly that stored
color: its color attachment uses `LoadOp::Clear` with the stored color. -/
theorem cursor_moved_drives_clear_color (s : State) (x y : ℚ) :
    (s.input (.cursorMoved x y)).consumed = true ∧
    (s.input (.cursorMoved x y)).redraw = true ∧
    (s.input (.cursorMoved x y)).state.color =
      { r := x / (s.size.width : ℚ)
        g := 1 - x / (s.size.width : ℚ)
        b := y / (s.size.height : ℚ)
        a := 1 } ∧
    (s.input (.cursorMoved x y)).state.render none =
      .ok { load := .clear (s.input (.cursorMoved x y)).state.color
            pipeline := (s.input (.cursorMoved x y)).state.bound_pipeline
            draw_vertices := (0, 3)
            draw_instances := (0, 1) } :=
  ⟨rfl, rfl, rfl, rfl⟩

/-- Claim C2: a `KeyboardInput` event with state `Pressed` and logical key
`Space` (which `input` does not consume) sets `current_pipeline` to `2` if
it was `1` and to `1` otherwise, requests a redraw, and prints the updated
pipeline number. -/
theorem space_keypress_switches_pipeline (env : StepEnv) (s : State) :
    (s.input (.keyboardInput .pressed (.named .space))).consumed = false ∧
    (handle_window_event env s (.keyboardInput .pressed (.named .space))).state =
      { s with current_pipeline := if s.current_pipeline = 1 then 2 else 1 } ∧
    (handle_window_event env s (.keyboardInput .pressed (.named .space))).effects =
      [.requestRedraw,
       .printLine ("Updated current pipeline: " ++
         toString (if s.current_pipeline = 1 then 2 else 1)),
       .flushStdout] := by
  refine ⟨rfl, ?_, ?_⟩ <;>
    by_cases hcp : s.current_pipeline = 1 <;>
      simp [handle_window_event, State.input, hcp]

/-- Claim C3: in every state reachable by the event loop,
`current_pipeline` is either `1` or `2`: `State::new` sets it to `1`,
every handler for an event other than a pressed Space key leaves it
unchanged, the Space handler maps every value into `{1, 2}`, and hence
every run of the loop keeps it in `{1, 2}`. -/
theorem reachable_current_pipeline_one_or_two
    (fs : String → Option String) (caps : SurfaceCapabilities)
    (ws : PhysicalSize) (wid : Nat) (s0 : State)
    (created : List RenderPipeline)
    (h : State.new fs caps ws wid = some (s0, created))
    (evs : List (StepEnv × Event)) :
    s0.current_pipeline = 1 ∧
    (∀ env t ev, ev ≠ WindowEvent.keyboardInput .pressed (.named .space) →
      (handle_window_event env t ev).state.current_pipeline =
        t.current_pipeline) ∧
    (∀ env t,
      (handle_window_event env t
        (.keyboardInput .pressed (.named .space))).state.current_pipeline = 1 ∨
      (handle_window_event env t
        (.keyboardInput .pressed (.named .space))).state.current_pipeline = 2) ∧
    ((run_events s0 evs).current_pipeline = 1 ∨
     (run_events s0 evs).current_pipeline = 2) := by
  obtain ⟨-, -, -, -, -, -, hcp, -, -, -⟩ := new_inv h
  refine ⟨hcp, ?_, ?_, run_events_pipeline_mem evs s0 (Or.inl hcp)⟩
  · intro env t ev hne
    cases ev with
    | mouseInput => simp [handle_window_event, State.input]
    | cursorMoved x y => simp [handle_window_event, State.input]
    | resized ps =>
      simp [handle_window_event, State.input, resize_fst_current_pipeline]
    | scaleFactorChanged sf =>
      simp [handle_window_event, State.input, resize_fst_current_pipeline]
    | redrawRequested =>
      rcases hacq : env.acquire with _ | e
      · simp [handle_window_event, State.input, State.render, hacq]
      · cases e <;>
          simp [handle_window_event, State.input, State.render, hacq,
            resize_fst_current_pipeline]
    | keyboardInput st key =>
      cases st with
      | pressed =>
        cases key with
        | named k =>
          cases k with
          | space => exact absurd rfl hne
          | escape => simp [handle_window_event, State.input]
          | enter => simp [handle_window_event, State.input]
          | otherNamed n => simp [handle_window_event, State.input]
        | character str => simp [handle_window_event, State.input]
      | released =>
        cases key with
        | named k => cases k <;> simp [handle_window_event, State.input]
        | character str => simp [handle_window_event, State.input]
    | closeRequested => simp [handle_window_event, State.input]
    | other => simp [handle_window_event, State.input]
  · intro env t
    by_cases hone : t.current_pipeline = 1 <;>
      simp [handle_window_event, State.input, hone]

/-- Witness for C3 at a concrete constructor input and event trace. -/
theorem reachable_current_pipeline_one_or_two_witness :
    State.new sample_fs sample_caps ⟨800, 600⟩ 0 =
      some (sample_state, [sample_state.pipeline, sample_state.pipeline2]) ∧
    ((run_events sample_state sample_events).current_pipeline = 1 ∨
     (run_events sample_state sample_events).current_pipeline = 2) :=
  ⟨rfl,
   (reachable_current_pipeline_one_or_two sample_fs sample_caps ⟨800, 600⟩ 0
      sample_state [sample_state.pipeline, sample_state.pipeline2]
      rfl sample_events).2.2.2⟩

/-- Claim C4: when `render` fails, the event loop's error handling changes
no field of the state: `Lost` is answered by `resize(state.size)`, which is
a no-op because the requested size equals the current size; `OutOfMemory`
only exits the loop; any other error is only printed. -/
theorem render_error_recovery_state_unchanged (env : StepEnv) (s : State)
    (e : SurfaceError) (h : env.acquire = some e) :
    (handle_window_event env s .redrawRequested).state = s ∧
    ((handle_window_event env s .redrawRequested).exited = true ↔
      e = .outOfMemory) := by
  cases e <;>
    simp [handle_window_event, State.input, State.render, h, State.resize]

/-- Witness for C4 at a concrete state and a `Lost` error. -/
theorem render_error_recovery_state_unchanged_witness :
    (({ acquire := some .lost, flush_ok := true } : StepEnv).acquire =
      some SurfaceError.lost) ∧
    ((handle_window_event { acquire := some .lost, flush_ok := true }
        sample_state .redrawRequested).state = sample_state ∧
     ((handle_window_event { acquire := some .lost, flush_ok := true }
        sample_state .redrawRequested).exited = true ↔
      SurfaceError.lost = .outOfMemory)) :=
  ⟨rfl,
   render_error_recovery_state_unchanged
     { acquire := some .lost, flush_ok := true } sample_state .lost rfl⟩

/-- Claim C5: for every state whose `current_pipeline` is `1` or `2`,
handling two consecutive pressed Space key events restores
`current_pipeline` to its original value. -/
theorem space_toggle_involution (env1 env2 : StepEnv) (s : State)
    (h : s.current_pipeline = 1 ∨ s.current_pipeline = 2) :
    (handle_window_event env2
      (handle_window_event env1 s
        (.keyboardInput .pressed (.named .space))).state
      (.keyboardInput .pressed (.named .space))).state.current_pipeline =
      s.current_pipeline := by
  rcases h with h | h <;> simp [handle_window_event, State.input, h]

/-- Witness for C5 at a concrete state with `current_pipeline = 1`. -/
theorem space_toggle_involution_witness :
    (sample_state.current_pipeline = 1 ∨
     sample_state.current_pipeline = 2) ∧
    (handle_window_event { acquire := none, flush_ok := true }
      (handle_window_event { acquire := none, flush_ok := true } sample_state
        (.keyboardInput .pressed (.named .space))).state
      (.keyboardInput .pressed (.named .space))).state.current_pipeline =
      sample_state.current_pipeline :=
  ⟨by decide,
   space_toggle_involution { acquire := none, flush_ok := true }
     { acquire := none, flush_ok := true } sample_state (by decide)⟩

/-- Claim C6: `State::new` creates exactly two render pipeline objects, one
per shader file, and `render` only ever binds one of those two: `pipeline2`
when `current_pipeline` equals `2`, and the first pipeline for every other
value of `current_pipeline`. -/
theorem new_two_pipelines_render_binds_one
    (fs : String → Option String) (caps : SurfaceCapabilities)
    (ws : PhysicalSize) (wid : Nat) (s : State)
    (created : List RenderPipeline)
    (h : State.new fs caps ws wid = some (s, created)) :
    created.length = 2 ∧
    created = [s.pipeline, s.pipeline2] ∧
    create_pipeline fs "Shader 1" "./src/shader.wgsl" = some s.pipeline ∧
    create_pipeline fs "Shader 2" "./src/shader2.wgsl" = some s.pipeline2 ∧
    (∀ t : State,
      t.bound_pipeline =
        if t.current_pipeline = 2 then t.pipeline2 else t.pipeline) := by
  obtain ⟨-, -, -, -, -, -, -, hcr, hp1, hp2⟩ := new_inv h
  refine ⟨by rw [hcr]; rfl, hcr, hp1, hp2, ?_⟩
  intro t
  unfold State.bound_pipeline
  rcases ht : t.current_pipeline with _ | _ | _ | n <;> simp [ht]

/-- Witness for C6 at a concrete constructor input. -/
theorem new_two_pipelines_render_binds_one_witness :
    State.new sample_fs sample_caps ⟨800, 600⟩ 0 =
      some (sample_state, [sample_state.pipeline, sample_state.pipeline2]) ∧
    ([sample_state.pipeline, sample_state.pipeline2].length = 2 ∧
     sample_state.bound_pipeline = sample_state.pipeline) :=
  ⟨rfl,
   (new_two_pipelines_render_binds_one sample_fs sample_caps ⟨800, 600⟩ 0
      sample_state [sample_state.pipeline, sample_state.pipeline2]
      rfl).1,
   rfl⟩

/-- Claim C7: the dispatcher consults `input` first; `input` returns `true`
exactly for `MouseInput` and `CursorMoved` events, and whenever it returns
`true` the dispatch takes the consumed-by-input branch, so none of the
other branches (resize, scale-factor change, redraw, keyboard, close)
runs; whenever it returns `false` the consumed-by-input branch does not
run. -/
theorem dispatcher_consults_input_first (env : StepEnv) (s : State)
    (ev : WindowEvent) :
    ((s.input ev).consumed = true ↔
      ev = .mouseInput ∨ ∃ x y, ev = .cursorMoved x y) ∧
    ((s.input ev).consumed = true →
      (handle_window_event env s ev).branch = .consumedByInput) ∧
    ((s.input ev).consumed = false →
      (handle_window_event env s ev).branch ≠ .consumedByInput) := by
  cases ev with
  | mouseInput => simp [State.input, handle_window_event]
  | cursorMoved x y => simp [State.input, handle_window_event]
  | resized ps => simp [State.input, handle_window_event]
  | scaleFactorChanged sf => simp [State.input, handle_window_event]
  | redrawRequested =>
    refine ⟨by simp [State.input], by simp [State.input], ?_⟩
    intro hfalse
    rcases hacq : env.acquire with _ | e
    · simp [State.input, handle_window_event, State.render, hacq]
    · cases e <;> simp [State.input, handle_window_event, State.render, hacq]
  | keyboardInput st key =>
    refine ⟨by simp [State.input], by simp [State.input], ?_⟩
    intro hfalse
    cases st with
    | pressed =>
      cases key with
      | named k => cases k <;> simp [State.input, handle_window_event]
      | character str => simp [State.input, handle_window_event]
    | released =>
      cases key with
      | named k => cases k <;> simp [State.input, handle_window_event]
      | character str => simp [State.input, handle_window_event]
  | closeRequested => simp [State.input, handle_window_event]
  | other => simp [State.input, handle_window_event]

/-- Witness for C7 at a concrete event consumed by `input`. -/
theorem dispatcher_consults_input_first_witness :
    ((sample_state.input .mouseInput).consumed = true ↔
      WindowEvent.mouseInput = .mouseInput ∨
      ∃ x y, WindowEvent.mouseInput = .cursorMoved x y) ∧
    ((sample_state.input .mouseInput).consumed = true →
      (handle_window_event { acquire := none, flush_ok := true } sample_state
        .mouseInput).branch = .consumedByInput) ∧
    ((sample_state.input .mouseInput).consumed = false →
      (handle_window_event { acquire := none, flush_ok := true } sample_state
        .mouseInput).branch ≠ .consumedByInput) :=
  dispatcher_consults_input_first { acquire := none, flush_ok := true }
    sample_state .mouseInput

/-- Claim C8: `State::new` makes the surface configuration's width and
height equal the window's inner size, picks as surface format the first
sRGB format reported by the capabilities (falling back to the first
reported format when none is sRGB), sets the initial clear color to
`(0.1, 0.2, 0.3, 1.0)`, and starts `current_pipeline` at `1`. -/
theorem new_initial_context
    (fs : String → Option String) (caps : SurfaceCapabilities)
    (ws : PhysicalSize) (wid : Nat) (s : State)
    (created : List RenderPipeline)
    (h : State.new fs caps ws wid = some (s, created)) :
    s.config.width = ws.width ∧ s.config.height = ws.height ∧
    (∃ f0 rest, caps.formats = f0 :: rest ∧
      s.config.format = (caps.formats.filter (fun f => f.is_srgb)).headD f0) ∧
    s.color = { r := 1/10, g := 2/10, b := 3/10, a := 1 } ∧
    s.current_pipeline = 1 := by
  obtain ⟨⟨fmt, hf, hfmt⟩, hw, hh, -, -, hcol, hcp, -, -, -⟩ := new_inv h
  refine ⟨hw, hh, ?_, hcol, hcp⟩
  rcases hcf : caps.formats with _ | ⟨f0, rest⟩
  · rw [surface_format_of, hcf] at hf
    simp at hf
  · refine ⟨f0, rest, rfl, ?_⟩
    have := surface_format_of_eq caps f0 rest hcf
    rw [hf, hcf] at this
    rw [hfmt]
    exact Option.some.inj this

/-- Witness for C8 at a concrete constructor input whose first reported
format is not sRGB. -/
theorem new_initial_context_witness :
    State.new sample_fs sample_caps ⟨800, 600⟩ 0 =
      some (sample_state, [sample_state.pipeline, sample_state.pipeline2]) ∧
    (sample_state.config.width = 800 ∧ sample_state.config.height = 600 ∧
     sample_state.color = { r := 1/10, g := 2/10, b := 3/10, a := 1 } ∧
     sample_state.current_pipeline = 1) :=
  ⟨rfl,
   (new_initial_context sample_fs sample_caps ⟨800, 600⟩ 0 sample_state
      [sample_state.pipeline, sample_state.pipeline2] rfl).1,
   (new_initial_context sample_fs sample_caps ⟨800, 600⟩ 0 sample_state
      [sample_state.pipeline, sample_state.pipeline2] rfl).2.1,
   (new_initial_context sample_fs sample_caps ⟨800, 600⟩ 0 sample_state
      [sample_state.pipeline, sample_state.pipeline2] rfl).2.2.2⟩

/-- Claim C9: `resize` changes the state only when the new size has
positive width and height and differs from the current size; in that case
exactly `size`, `config.width` and `config.height` change and the surface
is reconfigured, and in every other case the state is unchanged and no
reconfiguration happens. -/
theorem resize_frame_effect (s : State) (new_size : PhysicalSize) :
    ((0 < new_size.width ∧ 0 < new_size.height ∧ new_size ≠ s.size) →
      ((s.resize new_size).1.size = new_size ∧
       (s.resize new_size).1.config.width = new_size.width ∧
       (s.resize new_size).1.config.height = new_size.height ∧
       (s.resize new_size).1.config.format = s.config.format ∧
       (s.resize new_size).1.config.alpha_mode = s.config.alpha_mode ∧
       (s.resize new_size).1.config.desired_maximum_frame_latency =
         s.config.desired_maximum_frame_latency ∧
       (s.resize new_size).1.window_id = s.window_id ∧
       (s.resize new_size).1.color = s.color ∧
       (s.resize new_size).1.pipeline = s.pipeline ∧
       (s.resize new_size).1.pipeline2 = s.pipeline2 ∧
       (s.resize new_size).1.current_pipeline = s.current_pipeline ∧
       (s.resize new_size).2 = true)) ∧
    (¬(0 < new_size.width ∧ 0 < new_size.height ∧ new_size ≠ s.size) →
      s.resize new_size = (s, false)) := by
  constructor <;> intro hc <;> unfold State.resize
  · rw [if_pos ⟨⟨hc.1, hc.2.1⟩, hc.2.2⟩]
    exact ⟨rfl, rfl, rfl, rfl, rfl, rfl, rfl, rfl, rfl, rfl, rfl, rfl⟩
  · rw [if_neg]
    intro hcontra
    exact hc ⟨hcontra.1.1, hcontra.1.2, hcontra.2⟩

/-- Witness for C9 at a concrete state and a growing size. -/
theorem resize_frame_effect_witness :
    (0 < (1024 : Nat) ∧ 0 < (768 : Nat) ∧
      (⟨1024, 768⟩ : PhysicalSize) ≠ sample_state.size) ∧
    ((sample_state.resize ⟨1024, 768⟩).1.size = ⟨1024, 768⟩ ∧
     (sample_state.resize ⟨1024, 768⟩).2 = true) :=
  ⟨⟨by decide, by decide, by decide⟩,
   ((resize_frame_effect sample_state ⟨1024, 768⟩).1
      ⟨by decide, by decide, by decide⟩).1,
   ((resize_frame_effect sample_state ⟨1024, 768⟩).1
      ⟨by decide, by decide, by decide⟩).2.2.2.2.2.2.2.2.2.2.2⟩

/-- Claim C10: for every `MouseInput` window event, `input` returns `true`
and leaves every field of the state unchanged, so a mouse click is
consumed by the dispatcher with no observable effect: the dispatch step
keeps the state, produces no effects, and does not exit. -/
theorem mouse_input_no_observable_effect (env : StepEnv) (s : State) :
    s.input .mouseInput =
      { state := s, consumed := true, redraw := false } ∧
    handle_window_event env s .mouseInput =
      { state := s, effects := [], branch := .consumedByInput,
        exited := false } :=
  ⟨rfl, rfl⟩

end Engine
